import Mathlib

/-!
Verification of the attribution engine of the agent-trace CLI.

This file shallowly embeds the core algorithms of the repository:

* ledger.py   — diff parsing, per-line hashing, trace hash / range-claim
  indexes, per-line classification and the attribution-ledger builder;
* blame.py    — blame-segment grouping, the heuristic tier mapping and
  scorer, hash comparison, and the ledger-first attribution pass;
* rewrite.py  — post-rewrite ledger SHA remapping.

Machine-level pieces that cannot run inside Lean are abstracted as explicit
parameters with the same interface the Python code sees:

* the truncated SHA-256 hex digest is an abstract function
  H : String → String (the code only ever compares the digests for
  equality, and always uses them inside the literal format
  "sha256:" ++ H s);
* datetime.fromisoformat is an abstract partial parse function
  parse_time : String → Option Int returning a timestamp in seconds
  (failure models the ValueError / TypeError paths);
* the git subprocess calls are a record GitState of the outputs the
  builder requests (HEAD, parent, author date, changed-file list, file
  content at HEAD, per-file diff), exactly the data _git / _git_raw return.

All container operations (Python dict and list) are modelled with
association lists keeping insertion order, matching CPython semantics.
Floating-point confidence constants (1.0, 0.95, 0.0) are modelled as the
rationals 1, 95/100 and 0; every comparison made on them by the embedded
code is exact in both representations.
-/

set_option linter.unusedVariables false

namespace AgentTrace

/-! ## Association lists: model of Python dict (insertion-ordered, unique keys) -/

/-- Lookup in an association list; models Python dict indexing / `.get`. -/
def afind {α β : Type} [DecidableEq α] : List (α × β) → α → Option β
  | [], _ => none
  | (k', v) :: rest, k => if k' = k then some v else afind rest k

/-- Update-or-append; models Python dict assignment `d[k] = v`. -/
def aset {α β : Type} [DecidableEq α] : List (α × β) → α → β → List (α × β)
  | [], k, v => [(k, v)]
  | (k', v') :: rest, k, v =>
    if k' = k then (k', v) :: rest else (k', v') :: aset rest k v

/-- Concatenation of a list of lists (kept local so every definition here is
structurally recursive). -/
def concatAll {α : Type} : List (List α) → List α
  | [] => []
  | l :: ls => l ++ concatAll ls

/-! ## String utilities (over the character list, so they reduce in the kernel) -/

/-- Whitespace characters stripped by Python str.strip / str.split. -/
def isWsChar (c : Char) : Bool :=
  c == ' ' || c == '\t' || c == '\n' || c == '\r' || c == '\x0b' || c == '\x0c'

/-- True iff s.strip() would be empty in Python. -/
def strBlank (s : String) : Bool := s.data.all isWsChar

def splitNlGo : List Char → List Char → List String
  | [], acc => [⟨acc.reverse⟩]
  | c :: rest, acc =>
    if c == '\n' then ⟨acc.reverse⟩ :: splitNlGo rest [] else splitNlGo rest (c :: acc)

/-- Python str.split of a string on a single newline separator. -/
def splitNl (s : String) : List String := splitNlGo s.data []

def strStartsWithL : List Char → List Char → Bool
  | _, [] => true
  | [], _ :: _ => false
  | c :: cs, p :: ps => c == p && strStartsWithL cs ps

/-- Python str.startswith. -/
def strStartsWith (s p : String) : Bool := strStartsWithL s.data p.data

/-- Python str.endswith. -/
def strEndsWith (s p : String) : Bool := strStartsWithL s.data.reverse p.data.reverse

/-- Python str.removeprefix. -/
def removePrefixStr (s p : String) : String :=
  if strStartsWith s p then ⟨s.data.drop p.data.length⟩ else s

/-- Python str.lower (the code only lowercases hex digests, which are ASCII). -/
def toLowerStr (s : String) : String := ⟨s.data.map Char.toLower⟩

def lenStr (s : String) : Nat := s.data.length

/-- Python slicing s[:n]. -/
def takeStr (s : String) (n : Nat) : String := ⟨s.data.take n⟩

/-- Does the first character of s equal c (Python s.startswith with a
one-character argument)? -/
def headCharIs (s : String) (c : Char) : Bool :=
  match s.data with
  | [] => false
  | c' :: _ => c' == c

def strLtL : List Char → List Char → Bool
  | [], [] => false
  | [], _ :: _ => true
  | _ :: _, [] => false
  | a :: as, b :: bs => if a < b then true else if b < a then false else strLtL as bs

def insSortedStr (x : String) : List String → List String
  | [] => [x]
  | y :: ys =>
    if strLtL x.data y.data then x :: y :: ys
    else if x = y then y :: ys
    else y :: insSortedStr x ys

/-- Python sorted(set(l)) for strings (code-point lexicographic order). -/
def sortDedupStr (l : List String) : List String :=
  l.foldl (fun acc x => insSortedStr x acc) []

def insSortedInt (x : Int) : List Int → List Int
  | [] => [x]
  | y :: ys =>
    if x < y then x :: y :: ys
    else if x = y then y :: ys
    else y :: insSortedInt x ys

/-- Python sorted(set(l)) for integers. -/
def sortDedupInt (l : List Int) : List Int :=
  l.foldl (fun acc x => insSortedInt x acc) []

/-- Python range(s, e + 1) as a list of Ints (empty when e < s). -/
def intRange (s e : Int) : List Int :=
  (List.range (e + 1 - s).toNat).map (fun i => s + (i : Int))

/-- Python truthiness of an optional string (None and the empty string are falsy). -/
def truthyOpt : Option String → Bool
  | none => false
  | some s => s ≠ ""

/-- Last element of first :: rest (Python l[-1] for a nonempty list). -/
def lastD {α : Type} : List α → α → α
  | [], d => d
  | a :: l, _ => lastD l a

/-! ## Data model

Typed form of the JSON trace records (trace.py / ledger.py).  A missing or
non-dict JSON field is modelled as none / the empty list: the Python code
skips such entries, which is observationally the same as their absence. -/

/-- One entry of a conversation's ranges array. line_hashes keeps the hash
strings of its entries (ledger.py reads only lh.get("hash", "")). -/
structure TraceRange where
  start_line : Option Int
  end_line : Option Int
  content_hash : Option String
  line_hashes : List String
deriving DecidableEq, Repr

structure Conversation where
  contributor_model_id : Option String
  url : Option String
  start_line : Option Int
  end_line : Option Int
  content_hash : Option String
  ranges : List TraceRange
deriving DecidableEq, Repr

structure FileChange where
  start_line : Option Int
  end_line : Option Int
  content_hash : Option String
deriving DecidableEq, Repr

structure FileEntry where
  path : String
  start_line : Option Int
  end_line : Option Int
  content_hash : Option String
  conversations : List Conversation
  changes : List FileChange
deriving DecidableEq, Repr

/-- One trace record.  tool is kept opaque (the engine never inspects it;
it is only copied into metadata).  edit_sequence is metadata.edit_sequence. -/
structure Trace where
  id : String
  timestamp : Option String
  tool : Option String
  vcs_revision : Option String
  edit_sequence : Option Int
  files : List FileEntry
deriving DecidableEq, Repr

/-- The per-hash metadata record built by _build_trace_hash_index, also used
for the per-line claims of _build_range_claim_index (same dict shape). -/
structure TraceMeta where
  trace_id : String
  model_id : Option String
  tool : Option String
  conversation_url : Option String
  edit_sequence : Option Int
deriving DecidableEq, Repr

/-- One entry of a ledger's per-line attribution list (after merging). -/
structure LedgerSeg where
  start_line : Int
  end_line : Int
  type : String
  trace_id : Option String
  model_id : Option String
  conversation_url : Option String
deriving DecidableEq, Repr

/-- A persisted attribution ledger (ledger.py build_attribution_ledger).
files maps a path to its line_attributions list. -/
structure Ledger where
  version : String
  commit_sha : String
  parent_sha : Option String
  committed_at : Option String
  created_at : String
  trace_ids : List String
  files : List (String × List LedgerSeg)
deriving DecidableEq, Repr

/-- A per-line attribution before merging (ledger.py line_attrs entries). -/
structure LineAttribution where
  line : Int
  type : String
  trace_id : Option String
  model_id : Option String
  conversation_url : Option String
deriving DecidableEq, Repr

/-- The outputs of the git commands build_attribution_ledger runs:
rev-parse HEAD, rev-parse HEAD^, log -1 --format=%aI HEAD, the
diff --name-only between parent (or the empty tree) and HEAD, and per file
git show HEAD:path and the diff against the parent (or empty tree).
none models a failing command (_git / _git_raw return None). -/
structure GitState where
  head : Option String
  parent : Option String
  committedAt : Option String
  changedOut : Option String
  showFile : String → Option String
  diffFile : String → Option String

/-! ## ledger.py — diff parsing -/

def digitsToInt (ds : List Char) : Int :=
  Int.ofNat (ds.foldl (fun n c => n * 10 + (c.toNat - '0'.toNat)) 0)

/-- Parse an optional ",count" after a hunk number; mirrors the regex
group (?:,digits)? followed by a mandatory next token: if a comma is
present it must be followed by at least one digit, otherwise the whole
header fails to match. -/
def skipHunkCount : List Char → Option (List Char)
  | ',' :: cs =>
    let p := cs.span Char.isDigit
    if p.1.isEmpty then none else some p.2
  | cs => some cs

/-- Match the regex of ledger.py _parse_diff_ranges,
at the start of the line, returning the new-side start line:
at-at space minus digits (comma digits)? space plus digits (comma digits)?
space at-at, anything after. -/
def parseHunkNewStart (line : String) : Option Int :=
  match line.data with
  | '@' :: '@' :: ' ' :: '-' :: cs =>
    let p1 := cs.span Char.isDigit
    if p1.1.isEmpty then none
    else
      match skipHunkCount p1.2 with
      | none => none
      | some cs2 =>
        match cs2 with
        | ' ' :: '+' :: cs3 =>
          let p2 := cs3.span Char.isDigit
          if p2.1.isEmpty then none
          else
            match skipHunkCount p2.2 with
            | none => none
            | some cs5 =>
              match cs5 with
              | ' ' :: '@' :: '@' :: _ => some (digitsToInt p2.1)
              | _ => none
        | _ => none
  | _ => none

/-- State-machine loop of _parse_diff_ranges: lines left, in_hunk,
current_new_line, add_start, accumulated ranges. -/
def parseDiffGo : List String → Bool → Int → Option Int → List (Int × Int) → List (Int × Int)
  | [], _, cur, addStart, acc =>
    (match addStart with
     | some a => acc ++ [(a, cur - 1)]
     | none => acc)
  | line :: rest, inHunk, cur, addStart, acc =>
    match parseHunkNewStart line with
    | some ns =>
      let acc' := match addStart with
        | some a => acc ++ [(a, cur - 1)]
        | none => acc
      parseDiffGo rest true ns none acc'
    | none =>
      if !inHunk then parseDiffGo rest inHunk cur addStart acc
      else if headCharIs line '\\' then parseDiffGo rest inHunk cur addStart acc
      else if headCharIs line '+' then
        match addStart with
        | none => parseDiffGo rest inHunk (cur + 1) (some cur) acc
        | some a => parseDiffGo rest inHunk (cur + 1) (some a) acc
      else if headCharIs line '-' then
        let acc' := match addStart with
          | some a => acc ++ [(a, cur - 1)]
          | none => acc
        parseDiffGo rest inHunk cur none acc'
      else
        let acc' := match addStart with
          | some a => acc ++ [(a, cur - 1)]
          | none => acc
        parseDiffGo rest inHunk (cur + 1) none acc'

/-- ledger.py _parse_diff_ranges. -/
def parse_diff_ranges (diff_output : String) : List (Int × Int) :=
  parseDiffGo (splitNl diff_output) false 0 none []

/-! ## ledger.py — line hashing -/

/-- The content's line number ln (1-indexed), after stripping the trailing
empty line produced by a trailing newline; models the keys/values of
_compute_file_line_hashes before hashing. -/
def line_at (content : String) (ln : Int) : Option String :=
  let lines := splitNl content
  let lines := match lines.getLast? with
    | some "" => lines.dropLast
    | _ => lines
  if 1 ≤ ln then lines[(ln - 1).toNat]? else none

/-- ledger.py _compute_file_line_hashes, as the lookup
file_line_hashes.get(ln).  H abstracts the truncated sha256 hex digest. -/
def file_line_hash (H : String → String) (content : String) (ln : Int) : Option String :=
  (line_at content ln).map (fun s => "sha256:" ++ H s)

/-- The six precomputed trivial contents of build_attribution_ledger. -/
def trivial_strings : List String := ["", " ", "\t", "  ", "    ", "\t\t"]

/-- The _TRIVIAL_HASHES set of build_attribution_ledger. -/
def trivial_hashes (H : String → String) : List String :=
  trivial_strings.map (fun s => "sha256:" ++ H s)

/-! ## ledger.py — trace indexing -/

/-- The composite path test used by ledger.py (lines 174 and 301) and by
blame.py _find_matching_file: exact match or either path a suffix of the
other. -/
def pathMatches (fpath file_path : String) : Bool :=
  fpath == file_path || strEndsWith fpath file_path || strEndsWith file_path fpath

/-- The model_id / conversation_url first-truthy-wins update
(ledger.py lines 180-184 and analogous spots). -/
def takeFirst (cur newv : Option String) : Option String :=
  if truthyOpt newv && !truthyOpt cur then newv else cur

/-- The overwrite test of the hash-index tiebreak (ledger.py line 200):
edit_seq is not None and (existing_seq is None or edit_seq > existing_seq). -/
def eseq_better : Option Int → Option Int → Bool
  | none, _ => false
  | some _, none => true
  | some a, some b => b < a

/-- State while scanning one trace: the first-found model_id and
conversation_url, and the hash index built so far. -/
structure HState where
  model_id : Option String
  conversation_url : Option String
  index : List (String × TraceMeta)

def insert_hash (t : Trace) (st : HState) (h : String) : HState :=
  if h = "" then st
  else
    let overwrite :=
      match afind st.index h with
      | none => true
      | some existing => eseq_better t.edit_sequence existing.edit_sequence
    if overwrite then
      let m : TraceMeta := ⟨t.id, st.model_id, t.tool, st.conversation_url, t.edit_sequence⟩
      { st with index := aset st.index h m }
    else st

def proc_range_hashes (t : Trace) (st : HState) (r : TraceRange) : HState :=
  r.line_hashes.foldl (insert_hash t) st

def proc_conv_hashes (t : Trace) (st : HState) (conv : Conversation) : HState :=
  let st1 : HState :=
    { st with model_id := takeFirst st.model_id conv.contributor_model_id,
              conversation_url := takeFirst st.conversation_url conv.url }
  conv.ranges.foldl (proc_range_hashes t) st1

def proc_file_hashes (keep : String → Bool) (t : Trace) (st : HState) (fe : FileEntry) : HState :=
  if keep fe.path then fe.conversations.foldl (proc_conv_hashes t) st else st

def proc_trace_hashes (keep : String → Bool) (idx : List (String × TraceMeta)) (t : Trace) :
    List (String × TraceMeta) :=
  (t.files.foldl (proc_file_hashes keep t) ⟨none, none, idx⟩).index

/-- Common body of _build_trace_hash_index and _build_cross_file_hash_index
(the two Python functions differ only in the file filter). -/
def build_hash_index (keep : String → Bool) (traces : List Trace) :
    List (String × TraceMeta) :=
  traces.foldl (proc_trace_hashes keep) []

/-- ledger.py _build_trace_hash_index. -/
def build_trace_hash_index (traces : List Trace) (file_path : String) :
    List (String × TraceMeta) :=
  build_hash_index (fun p => pathMatches p file_path) traces

/-- ledger.py _build_cross_file_hash_index. -/
def build_cross_file_hash_index (traces : List Trace) : List (String × TraceMeta) :=
  build_hash_index (fun _ => true) traces

/-- State while scanning one trace for range claims. -/
structure RState where
  model_id : Option String
  conversation_url : Option String
  index : List (Int × List TraceMeta)

def proc_range_claims (t : Trace) (st : RState) (r : TraceRange) : RState :=
  match r.start_line, r.end_line with
  | some s, some e =>
    let claim : TraceMeta := ⟨t.id, st.model_id, t.tool, st.conversation_url, t.edit_sequence⟩
    let idx' := (intRange s e).foldl (fun ix ln => aset ix ln ((afind ix ln).getD [] ++ [claim])) st.index
    { st with index := idx' }
  | _, _ => st

def proc_conv_claims (t : Trace) (st : RState) (conv : Conversation) : RState :=
  let st1 : RState :=
    { st with model_id := takeFirst st.model_id conv.contributor_model_id,
              conversation_url := takeFirst st.conversation_url conv.url }
  conv.ranges.foldl (proc_range_claims t) st1

def proc_file_claims (file_path : String) (t : Trace) (st : RState) (fe : FileEntry) : RState :=
  if pathMatches fe.path file_path then fe.conversations.foldl (proc_conv_claims t) st else st

def proc_trace_claims (file_path : String) (idx : List (Int × List TraceMeta)) (t : Trace) :
    List (Int × List TraceMeta) :=
  (t.files.foldl (proc_file_claims file_path t) ⟨none, none, idx⟩).index

/-- ledger.py _build_range_claim_index. -/
def build_range_claim_index (traces : List Trace) (file_path : String) :
    List (Int × List TraceMeta) :=
  traces.foldl (proc_trace_claims file_path) []

/-! ## ledger.py — candidate discovery -/

/-- ledger.py _find_candidate_traces; parse_time abstracts
datetime.fromisoformat (seconds since an arbitrary epoch), so the window
of [-24h, +1h] is [-86400s, +3600s]. -/
def find_candidate_traces (all_traces : List Trace) (parent_sha : Option String)
    (committed_at : Option String) (parse_time : String → Option Int) :
    List Trace × List Trace :=
  let revPart : List Trace × List String :=
    match parent_sha with
    | none => ([], [])
    | some p =>
      if p = "" then ([], [])
      else
        all_traces.foldl (fun st t =>
          if t.vcs_revision = some p ∧ t.id ≠ "" ∧ t.id ∉ st.2 then
            (st.1 ++ [t], st.2 ++ [t.id])
          else st) ([], [])
  let revision_matched := revPart.1
  let seen := revPart.2
  let timestamp_matched : List Trace :=
    match committed_at with
    | none => []
    | some ca =>
      if ca = "" then []
      else
        match parse_time ca with
        | none => []
        | some cd =>
          (all_traces.foldl (fun st t =>
            if t.id ∈ st.2 then st
            else
              match t.timestamp with
              | none => st
              | some ts_str =>
                if ts_str = "" then st
                else
                  match parse_time ts_str with
                  | none => st
                  | some ts =>
                    if cd - 86400 ≤ ts ∧ ts ≤ cd + 3600 then (st.1 ++ [t], st.2 ++ [t.id])
                    else st) ([], seen)).1
  (revision_matched, timestamp_matched)

/-! ## ledger.py — per-line classification and merging -/

/-- The tie-break key of ledger.py line 561:
max(claims, key=lambda c: c.get("edit_sequence") or -1).
Python's `or` treats the integer 0 as falsy, so an edit_sequence of 0 is
keyed as -1, exactly like an absent one. -/
def es_key (c : TraceMeta) : Int :=
  match c.edit_sequence with
  | none => -1
  | some n => if n = 0 then -1 else n

/-- Python max over a claims list with the es_key key function: the first
element with the maximal key wins (max replaces only on strictly greater). -/
def max_claim : List TraceMeta → Option TraceMeta
  | [] => none
  | c :: cs => some (cs.foldl (fun best x => if es_key best < es_key x then x else best) c)

/-- The classification of one changed line, ledger.py lines 532-574:
trivial hash → human; hash-index hit → ai; range claim → mixed with the
max-key claim; otherwise human.  (The inner none branch of max_claim is
unreachable for indexes built by build_range_claim_index, whose stored
lists are always nonempty.) -/
def classify_changed_line (trivial : List String) (hidx : List (String × TraceMeta))
    (ridx : List (Int × List TraceMeta)) (ln : Int) (line_hash : String) : LineAttribution :=
  if line_hash ∈ trivial then ⟨ln, "human", none, none, none⟩
  else
    match afind hidx line_hash with
    | some m => ⟨ln, "ai", some m.trace_id, m.model_id, m.conversation_url⟩
    | none =>
      match afind ridx ln with
      | some claims =>
        match max_claim claims with
        | some best => ⟨ln, "mixed", some best.trace_id, best.model_id, best.conversation_url⟩
        | none => ⟨ln, "human", none, none, none⟩
      | none => ⟨ln, "human", none, none, none⟩

def segOfLineAttr (la : LineAttribution) : LedgerSeg :=
  ⟨la.line, la.line, la.type, la.trace_id, la.model_id, la.conversation_url⟩

def mergeLineAttrsGo (cur : LedgerSeg) (acc : List LedgerSeg) :
    List LineAttribution → List LedgerSeg
  | [] => acc ++ [cur]
  | la :: rest =>
    if cur.end_line + 1 = la.line ∧ cur.type = la.type ∧ cur.trace_id = la.trace_id then
      mergeLineAttrsGo { cur with end_line := la.line } acc rest
    else
      mergeLineAttrsGo (segOfLineAttr la) (acc ++ [cur]) rest

/-- ledger.py _merge_line_attrs. -/
def merge_line_attrs : List LineAttribution → List LedgerSeg
  | [] => []
  | la :: rest => mergeLineAttrsGo (segOfLineAttr la) [] rest

/-! ## ledger.py — the ledger builder -/

/-- The per-changed-file body of build_attribution_ledger (lines 481-581).
State: the files dict and the used trace ids collected so far. -/
def process_changed_file (gs : GitState) (H : String → String)
    (revision_matched timestamp_matched all_candidates : List Trace)
    (trivial : List String)
    (st : List (String × List LedgerSeg) × List String) (file_path : String) :
    List (String × List LedgerSeg) × List String :=
  match gs.showFile file_path with
  | none => st
  | some content =>
    let diff_ranges :=
      match gs.diffFile file_path with
      | some d => parse_diff_ranges d
      | none => []
    if diff_ranges.isEmpty then st
    else
      let changed_lines := sortDedupInt (concatAll (diff_ranges.map (fun p => intRange p.1 p.2)))
      let hidx0 := build_trace_hash_index all_candidates file_path
      let ridx := build_range_claim_index revision_matched file_path
      let hidx :=
        if hidx0.isEmpty && ridx.isEmpty then
          let cf := build_cross_file_hash_index revision_matched
          if cf.isEmpty then build_cross_file_hash_index timestamp_matched else cf
        else hidx0
      let line_attrs := changed_lines.filterMap (fun ln =>
        match file_line_hash H content ln with
        | none => none
        | some lh => some (classify_changed_line trivial hidx ridx ln lh))
      if line_attrs.isEmpty then st
      else
        let segments := merge_line_attrs line_attrs
        let used := line_attrs.filterMap (fun la =>
          if la.type = "ai" ∨ la.type = "mixed" then la.trace_id else none)
        (aset st.1 file_path segments, st.2 ++ used)

/-- build_attribution_ledger without the created_at stamp (the Python
function fills every field of the returned dict from its inputs except
created_at, which is datetime.now()). -/
def build_attribution_ledger_core (gs : GitState) (traces : List Trace)
    (H : String → String) (parse_time : String → Option Int) : Option Ledger :=
  match gs.head with
  | none => none
  | some commit_sha =>
    if commit_sha = "" then none
    else
      match gs.changedOut with
      | none => none
      | some changed_out =>
        if changed_out = "" then none
        else
          let changed_files := (splitNl changed_out).filter (fun f => !strBlank f)
          if changed_files.isEmpty then none
          else
            let cand := find_candidate_traces traces gs.parent gs.committedAt parse_time
            let all_candidates := cand.1 ++ cand.2
            let trivial := trivial_hashes H
            let res := changed_files.foldl
              (process_changed_file gs H cand.1 cand.2 all_candidates trivial) ([], [])
            if res.1.isEmpty then none
            else
              some { version := "1.0", commit_sha := commit_sha, parent_sha := gs.parent,
                     committed_at := gs.committedAt, created_at := "",
                     trace_ids := sortDedupStr res.2, files := res.1 }

/-- ledger.py build_attribution_ledger; now is the wall-clock ISO string
datetime.now(timezone.utc).isoformat() observed at build time. -/
def build_attribution_ledger (gs : GitState) (traces : List Trace)
    (H : String → String) (parse_time : String → Option Int) (now : String) : Option Ledger :=
  (build_attribution_ledger_core gs traces H parse_time).map
    (fun l => { l with created_at := now })

/-- Erase the created_at stamp of a ledger (for comparing builds). -/
def Ledger.eraseCreated (l : Ledger) : Ledger := { l with created_at := "" }

/-! ## blame.py — blame records and segment grouping -/

/-- One parsed record of git blame --porcelain (blame.py _parse_blame_porcelain). -/
structure BlameRec where
  commit_sha : String
  orig_line : Int
  final_line : Int
  content : String
  author : String
  author_time : Option Int
  summary : String
  filename : String
deriving DecidableEq, Repr

/-- One blame segment (blame.py _group_into_segments output). -/
structure Segment where
  commit_sha : String
  start_line : Int
  end_line : Int
  orig_start_line : Int
  orig_end_line : Int
  content_lines : List String
  author : String
  author_time : Option Int
  summary : String
  filename : String
deriving DecidableEq, Repr

def segOfRec (r : BlameRec) : Segment :=
  { commit_sha := r.commit_sha, start_line := r.final_line, end_line := r.final_line,
    orig_start_line := r.orig_line, orig_end_line := r.orig_line,
    content_lines := [r.content], author := r.author, author_time := r.author_time,
    summary := r.summary, filename := r.filename }

def groupGo (cur : Segment) (acc : List Segment) : List BlameRec → List Segment
  | [] => acc ++ [cur]
  | r :: rs =>
    if cur.commit_sha = r.commit_sha ∧ cur.end_line + 1 = r.final_line then
      groupGo { cur with end_line := r.final_line, orig_end_line := r.orig_line,
                         content_lines := cur.content_lines ++ [r.content] } acc rs
    else
      groupGo (segOfRec r) (acc ++ [cur]) rs

/-- blame.py _group_into_segments. -/
def group_into_segments : List BlameRec → List Segment
  | [] => []
  | r :: rs => groupGo (segOfRec r) [] rs

/-! ## blame.py — heuristic scoring and tier mapping -/

def WEIGHT_COMMIT_LINK : Int := 40
def WEIGHT_CONTENT_HASH : Int := 30
def WEIGHT_REVISION_PARENT : Int := 15
def WEIGHT_RANGE_MATCH : Int := 10
def WEIGHT_RANGE_OVERLAP : Int := 5
def WEIGHT_TIMESTAMP : Int := 5

/-- The _STRUCTURAL set of blame.py _compute_tier. -/
def structural_signals : List String :=
  ["commit_link", "content_hash", "revision_parent",
   "revision_ancestor", "range_match", "range_overlap"]

/-- blame.py _compute_tier.  The Python score is a float, but every score
produced by the scorer is a sum of the integer weights, so it is modelled
as an Int; all threshold comparisons are exact in both representations. -/
def compute_tier (score : Int) (signals : List String) : Option Int :=
  if score ≤ 0 then none
  else if ¬ ∃ s ∈ signals, s ∈ structural_signals then none
  else if 95 ≤ score ∧ "commit_link" ∈ signals ∧ "content_hash" ∈ signals then some 1
  else if 80 ≤ score then some 2
  else if 60 ≤ score then some 3
  else if 45 ≤ score then some 4
  else if 25 ≤ score then some 5
  else some 6

/-- blame.py _hashes_match. -/
def hashes_match (hash_a hash_b : String) : Bool :=
  let a := toLowerStr (removePrefixStr hash_a "sha256:")
  let b := toLowerStr (removePrefixStr hash_b "sha256:")
  let min_len := min (lenStr a) (lenStr b)
  if min_len = 0 then false
  else takeStr a min_len == takeStr b min_len

/-- Modelled from the spec: section 4.2 defines two hashes to match iff
their value portions (after the sha256: prefix) agree on the shorter of
the two lengths.  Written from the spec's words, for comparison with the
implementation hashes_match. -/
def spec_hashes_match (hash_a hash_b : String) : Bool :=
  let a := removePrefixStr hash_a "sha256:"
  let b := removePrefixStr hash_b "sha256:"
  let min_len := min (lenStr a) (lenStr b)
  takeStr a min_len == takeStr b min_len

/-- blame.py _find_matching_file. -/
def find_matching_file (files : List FileEntry) (file_path : String) : Option FileEntry :=
  files.find? (fun f => pathMatches f.path file_path)

/-- blame.py _collect_ranges: file-entry range, then per conversation the
conversation range and its ranges array, then the changes. -/
def collect_ranges (fe : FileEntry) : List (Int × Int) :=
  (match fe.start_line, fe.end_line with
   | some s, some e => [(s, e)]
   | _, _ => []) ++
  concatAll (fe.conversations.map (fun conv =>
    (match conv.start_line, conv.end_line with
     | some s, some e => [(s, e)]
     | _, _ => []) ++
    conv.ranges.filterMap (fun r =>
      match r.start_line, r.end_line with
      | some s, some e => some (s, e)
      | _, _ => none))) ++
  fe.changes.filterMap (fun c =>
    match c.start_line, c.end_line with
    | some s, some e => some (s, e)
    | _, _ => none)

/-- blame.py _extract_content_hashes (truthy hashes only, in source order). -/
def extract_content_hashes (fe : FileEntry) : List String :=
  concatAll (fe.conversations.map (fun conv =>
    conv.ranges.filterMap (fun r =>
      match r.content_hash with
      | some ch => if ch = "" then none else some ch
      | none => none) ++
    (match conv.content_hash with
     | some ch => if ch = "" then [] else [ch]
     | none => []))) ++
  fe.changes.filterMap (fun c =>
    match c.content_hash with
    | some ch => if ch = "" then none else some ch
    | none => none) ++
  (match fe.content_hash with
   | some ch => if ch = "" then [] else [ch]
   | none => [])

/-- The range loop of _score_trace_local: first range wins, exact
containment before the plus-minus-5 tolerance, then break. -/
def rangeSignal (ranges : List (Int × Int)) (ln : Int) : Option (Int × String) :=
  match ranges with
  | [] => none
  | (s, e) :: rest =>
    if s ≤ ln ∧ ln ≤ e then some (WEIGHT_RANGE_MATCH, "range_match")
    else if s - 5 ≤ ln ∧ ln ≤ e + 5 then some (WEIGHT_RANGE_OVERLAP, "range_overlap")
    else rangeSignal rest ln

/-- blame.py _score_trace_local. -/
def score_trace_local (trace : Trace) (file_path : String) (line_number : Int)
    (content_hash : Option String) (blame_commit : String) (blame_parent : Option String)
    (has_commit_link : Bool) (linked_trace_ids : List String) : Int × List String :=
  let acc0 : Int × List String := (0, [])
  let acc1 :=
    if has_commit_link ∧ trace.id ∈ linked_trace_ids then
      (acc0.1 + WEIGHT_COMMIT_LINK, acc0.2 ++ ["commit_link"])
    else acc0
  let acc2 :=
    match trace.vcs_revision, blame_parent with
    | some tr, some bp =>
      if tr ≠ "" ∧ bp ≠ "" then
        if tr = bp then (acc1.1 + WEIGHT_REVISION_PARENT, acc1.2 ++ ["revision_parent"])
        else if 7 ≤ lenStr tr ∧ 7 ≤ lenStr bp then
          let ml := min (lenStr tr) (lenStr bp)
          if takeStr tr ml = takeStr bp ml then
            (acc1.1 + WEIGHT_REVISION_PARENT, acc1.2 ++ ["revision_parent"])
          else acc1
        else acc1
      else acc1
    | _, _ => acc1
  let acc3 :=
    match find_matching_file trace.files file_path with
    | none => acc2
    | some mf =>
      let accA :=
        match rangeSignal (collect_ranges mf) line_number with
        | some (w, name) => (acc2.1 + w, acc2.2 ++ [name])
        | none => acc2
      match content_hash with
      | some ch =>
        if ch ≠ "" then
          if (extract_content_hashes mf).any (fun fh => hashes_match ch fh) then
            (accA.1 + WEIGHT_CONTENT_HASH, accA.2 ++ ["content_hash"])
          else accA
        else accA
      | none => accA
  match trace.timestamp with
  | some ts => if ts ≠ "" then (acc3.1 + WEIGHT_TIMESTAMP, acc3.2 ++ ["timestamp_match"]) else acc3
  | none => acc3

/-! ## blame.py — ledger-first attribution -/

/-- blame.py _ranges_overlap. -/
def ranges_overlap (attr_start attr_end seg_start seg_end : Int) : Bool :=
  attr_start ≤ seg_end && seg_start ≤ attr_end

/-- blame.py _attribution_type_label. -/
def attribution_type_label (t : String) : String :=
  if t = "ai" then "AI"
  else if t = "human" then "Human"
  else if t = "mixed" then "Mixed"
  else t

/-- One output attribution (the dict built by _attribute_from_ledger; the
heuristic path fills the same keys except source / attribution_label). -/
structure Attribution where
  start_line : Int
  end_line : Int
  tier : Option Int
  confidence : ℚ
  trace_id : Option String
  model_id : Option String
  contributor_type : Option String
  tool : Option String
  conversation_url : Option String
  conversation_summary : Option String
  matched_range : Option (Int × Int)
  commit_sha : String
  signals : List String
  commit_link_match : Bool
  content_hash_match : Bool
  source : Option String
  attribution_label : Option String
deriving DecidableEq, Repr

def mk_ledger_attribution (commit_sha : String) (offset cs ce : Int) (la : LedgerSeg) :
    Attribution :=
  let is_ai := la.type = "ai"
  let is_mixed := la.type = "mixed"
  { start_line := cs + offset, end_line := ce + offset,
    tier := if is_ai then some 1 else if is_mixed then some 3 else none,
    confidence := if is_ai then 1 else if is_mixed then 95 / 100 else 0,
    trace_id := la.trace_id, model_id := la.model_id,
    contributor_type := some la.type, tool := none,
    conversation_url := la.conversation_url, conversation_summary := none,
    matched_range := some (la.start_line, la.end_line),
    commit_sha := commit_sha, signals := ["ledger"],
    commit_link_match := true, content_hash_match := is_ai,
    source := some "ledger",
    attribution_label := some (attribution_type_label la.type) }

/-- Stable insertion step for sorting ledger entries by start_line
(Python sorted is stable; an element is inserted before the first strictly
greater key and after equal keys of earlier elements). -/
def insertBySL (x : LedgerSeg) : List LedgerSeg → List LedgerSeg
  | [] => [x]
  | y :: ys => if x.start_line ≤ y.start_line then x :: y :: ys else y :: insertBySL x ys

def sortBySL (l : List LedgerSeg) : List LedgerSeg := l.foldr insertBySL []

/-- The gap forwarding of _attribute_from_ledger (blame.py lines 719-740):
given the first covered original line and the last covered original line of
the sorted overlapping ledger entries, forward at most one leading and one
trailing gap segment, clamped to the gap's bounds (interior gaps between
covered ranges produce nothing). -/
def ledger_gap_segments (seg : Segment) (covered_orig_start covered_orig_end : Int) :
    List Segment :=
  (if seg.orig_start_line < covered_orig_start then
    [{ seg with
        end_line := covered_orig_start + (seg.start_line - seg.orig_start_line) - 1,
        orig_end_line := covered_orig_start - 1,
        content_lines :=
          seg.content_lines.take (covered_orig_start - seg.orig_start_line).toNat }]
   else []) ++
  (if covered_orig_end < seg.orig_end_line then
    [{ seg with
        start_line := covered_orig_end + (seg.start_line - seg.orig_start_line) + 1,
        orig_start_line := covered_orig_end + 1,
        content_lines :=
          seg.content_lines.drop (covered_orig_end - seg.orig_start_line + 1).toNat }]
   else [])

/-- The per-segment body of blame.py _attribute_from_ledger: the emitted
attributions and the remaining (heuristic-path) segments for one blame
segment. -/
def attribute_from_ledger_seg (ledgers : List (String × Ledger)) (file_path : String)
    (seg : Segment) : List Attribution × List Segment :=
  match afind ledgers seg.commit_sha with
  | none => ([], [seg])
  | some ledger =>
    match afind ledger.files file_path with
    | none => ([], [seg])
    | some line_attrs =>
      let orig_start := seg.orig_start_line
      let orig_end := seg.orig_end_line
      let offset := seg.start_line - orig_start
      let overlapping := (sortBySL line_attrs).filterMap (fun la =>
        if ranges_overlap la.start_line la.end_line orig_start orig_end then
          some (max la.start_line orig_start, min la.end_line orig_end, la)
        else none)
      match overlapping with
      | [] => ([], [seg])
      | first :: rest =>
        ((first :: rest).map (fun ov =>
           mk_ledger_attribution seg.commit_sha offset ov.1 ov.2.1 ov.2.2),
         ledger_gap_segments seg first.1 (lastD rest first).2.1)

/-- blame.py _attribute_from_ledger: loop over the segments, appending the
per-segment attributions and remaining segments. -/
def attribute_from_ledger (blame_segments : List Segment)
    (ledgers : List (String × Ledger)) (file_path : String) :
    List Attribution × List Segment :=
  blame_segments.foldl (fun acc seg =>
    let r := attribute_from_ledger_seg ledgers file_path seg
    (acc.1 ++ r.1, acc.2 ++ r.2)) ([], [])

/-! ## rewrite.py — post-rewrite ledger remapping -/

/-- The stdin parsing loop of rewrite_ledgers: strip, skip blank lines,
whitespace-split, take lines with at least two fields; later lines with
the same old SHA overwrite earlier ones (dict assignment). -/
def splitWsGo : List Char → List Char → List String
  | [], acc => if acc.isEmpty then [] else [⟨acc.reverse⟩]
  | c :: rest, acc =>
    if isWsChar c then
      if acc.isEmpty then splitWsGo rest [] else ⟨acc.reverse⟩ :: splitWsGo rest []
    else splitWsGo rest (c :: acc)

/-- Python str.split() (whitespace split, no empty fields). -/
def splitWsStr (s : String) : List String := splitWsGo s.data []

def parse_sha_map (stdin_lines : List String) : List (String × String) :=
  stdin_lines.foldl (fun m line =>
    if strBlank line then m
    else
      match splitWsStr line with
      | old :: newer :: _ => aset m old newer
      | _ => m) []

/-- The per-ledger remap of rewrite_ledgers: commit_sha is rewritten when
it is a key of the map (counted), parent_sha is rewritten when truthy and
a key (not counted). -/
def remap_ledger (m : List (String × String)) (l : Ledger) : Ledger × Bool :=
  let cs :=
    match afind m l.commit_sha with
    | some ns => (ns, true)
    | none => (l.commit_sha, false)
  let ps :=
    match l.parent_sha with
    | some p =>
      if p ≠ "" then
        match afind m p with
        | some np => some np
        | none => l.parent_sha
      else l.parent_sha
    | none => l.parent_sha
  ({ l with commit_sha := cs.1, parent_sha := ps }, cs.2)

/-- rewrite.py rewrite_ledgers on an existing ledger store: returns the
resulting store contents and the remapped count.  When the count is zero
the file is not rewritten, so the store keeps its original contents
(including any in-memory parent_sha change, which is discarded). -/
def rewrite_ledgers (m : List (String × String)) (ledgers : List Ledger) :
    List Ledger × Nat :=
  if m.isEmpty then (ledgers, 0)
  else
    let results := ledgers.map (remap_ledger m)
    let remapped := (results.filter (fun r => r.2)).length
    if remapped = 0 then (ledgers, 0) else (results.map (fun r => r.1), remapped)

/-! ## Concrete test states used by the counterexamples and witnesses -/

/-- A trace of the C1 scenario: recorded at the parent revision, claiming
line 1 of a.txt by range, with no metadata.edit_sequence. -/
def trA : Trace :=
  { id := "A", timestamp := none, tool := none, vcs_revision := some "p0",
    edit_sequence := none,
    files := [{ path := "a.txt", start_line := none, end_line := none, content_hash := none,
                conversations := [{ contributor_model_id := none, url := none,
                                    start_line := none, end_line := none, content_hash := none,
                                    ranges := [{ start_line := some 1, end_line := some 1,
                                                 content_hash := none, line_hashes := [] }] }],
                changes := [] }] }

/-- Like trA but with edit_sequence 0 (the value record.py assigns to the
first edit of a session). -/
def trB : Trace := { trA with id := "B", edit_sequence := some 0 }

/-- Git facts for the C1 scenario: commit c1 on parent p0 changes a.txt,
adding the single line "x". -/
def gsC1 : GitState :=
  { head := some "c1", parent := some "p0", committedAt := none,
    changedOut := some "a.txt",
    showFile := fun p => if p = "a.txt" then some "x\n" else none,
    diffFile := fun p => if p = "a.txt" then some "@@ -0,0 +1 @@\n+x" else none }

/-- A trace for the C7 scenario: its line-hash table contains the hash of a
three-space line. -/
def tr7 : Trace :=
  { id := "T", timestamp := none, tool := none, vcs_revision := some "p0",
    edit_sequence := none,
    files := [{ path := "a.txt", start_line := none, end_line := none, content_hash := none,
                conversations := [{ contributor_model_id := some "m1", url := none,
                                    start_line := none, end_line := none, content_hash := none,
                                    ranges := [{ start_line := some 1, end_line := some 1,
                                                 content_hash := none,
                                                 line_hashes := ["sha256:   "] }] }],
                changes := [] }] }

/-- Git facts for the C7 scenario: the committed change adds one line of
three spaces (whitespace-only but not one of the six precomputed trivial
strings). -/
def gs7 : GitState :=
  { gsC1 with showFile := fun p => if p = "a.txt" then some "   \n" else none,
              diffFile := fun p => if p = "a.txt" then some "@@ -0,0 +1 @@\n+   " else none }

/-- Git facts for the C5 scenario: an initial commit adding one line. -/
def gs5 : GitState :=
  { head := some "c1", parent := none, committedAt := none,
    changedOut := some "a.txt",
    showFile := fun p => if p = "a.txt" then some "x\n" else none,
    diffFile := fun p => if p = "a.txt" then some "@@ -0,0 +1 @@\n+x" else none }

/-- A blame segment spanning original (and current) lines 1-3 of commit C. -/
def seg3 : Segment :=
  { commit_sha := "C", start_line := 1, end_line := 3, orig_start_line := 1, orig_end_line := 3,
    content_lines := ["a", "b", "c"], author := "", author_time := none,
    summary := "", filename := "f" }

/-- A ledger for commit C covering only lines 1 and 3 of f (fragmented
coverage with an interior gap at line 2). -/
def ledg3 : Ledger :=
  { version := "1.0", commit_sha := "C", parent_sha := none, committed_at := none,
    created_at := "t", trace_ids := ["T"],
    files := [("f", [{ start_line := 1, end_line := 1, type := "ai", trace_id := some "T",
                       model_id := none, conversation_url := none },
                     { start_line := 3, end_line := 3, type := "ai", trace_id := some "T",
                       model_id := none, conversation_url := none }])] }

/-- A ledger for commit C covering lines 2-3 of f (leading gap at line 1). -/
def ledgW3 : Ledger :=
  { ledg3 with
    files := [("f", [{ start_line := 2, end_line := 3, type := "ai", trace_id := some "T",
                       model_id := none, conversation_url := none }])] }

/-- A stored ledger keyed by commit A with parent P. -/
def lA6 : Ledger :=
  { version := "1.0", commit_sha := "A", parent_sha := some "P", committed_at := none,
    created_at := "t", trace_ids := [], files := [] }

/-- A chained SHA mapping: A to B and B to C (the value B is also a key). -/
def mChain : List (String × String) := [("A", "B"), ("B", "C")]

/-- The simple mapping A to B of the claim's round-trip scenario. -/
def m6 : List (String × String) := [("A", "B")]

/-- A blame record with fixed metadata (content "x", empty author fields). -/
def mkBlameRec (c : String) (o f : Int) : BlameRec :=
  { commit_sha := c, orig_line := o, final_line := f, content := "x", author := "",
    author_time := none, summary := "", filename := "f" }

/-- Records for current lines 10-15 on commit c1 and line 16 on commit c2. -/
def exRecs9 : List BlameRec :=
  [mkBlameRec "c1" 10 10, mkBlameRec "c1" 11 11, mkBlameRec "c1" 12 12,
   mkBlameRec "c1" 13 13, mkBlameRec "c1" 14 14, mkBlameRec "c1" 15 15,
   mkBlameRec "c2" 16 16]

def seg9a : Segment :=
  { commit_sha := "c1", start_line := 10, end_line := 15, orig_start_line := 10,
    orig_end_line := 15, content_lines := ["x", "x", "x", "x", "x", "x"], author := "",
    author_time := none, summary := "", filename := "f" }

def seg9b : Segment :=
  { commit_sha := "c2", start_line := 16, end_line := 16, orig_start_line := 16,
    orig_end_line := 16, content_lines := ["x"], author := "",
    author_time := none, summary := "", filename := "f" }

/-- Consecutive current lines 1-3 on one commit whose original lines jump
from 2 to 9 (a later commit deleted original lines 3-8). -/
def badRecs4 : List BlameRec :=
  [mkBlameRec "c" 1 1, mkBlameRec "c" 2 2, mkBlameRec "c" 9 3]

/-- The single segment the grouper produces from badRecs4. -/
def badSeg4 : Segment :=
  { commit_sha := "c", start_line := 1, end_line := 3, orig_start_line := 1,
    orig_end_line := 9, content_lines := ["x", "x", "x"], author := "",
    author_time := none, summary := "", filename := "f" }

/-- Records whose original lines do advance in step inside the same-commit run. -/
def goodRecs4 : List BlameRec :=
  [mkBlameRec "c" 5 10, mkBlameRec "c" 6 11, mkBlameRec "d" 1 12]

/-- A trace carrying only a timestamp (no revision, no files). -/
def t2w : Trace :=
  { id := "T", timestamp := some "2024-01-01T00:00:00+00:00", tool := none,
    vcs_revision := none, edit_sequence := none, files := [] }

/-- A throwaway hash-index entry. -/
def meta8 : TraceMeta := ⟨"T", none, none, none, none⟩

/-! ## Predicates stated by the claims -/

/-- Two adjacent output segments are never mergeable: they differ in commit
or are not line-consecutive. -/
def no_mergeable_adjacent (s s' : Segment) : Prop :=
  ¬(s.commit_sha = s'.commit_sha ∧ s.end_line + 1 = s'.start_line)

instance (s s' : Segment) : Decidable (no_mergeable_adjacent s s') :=
  inferInstanceAs (Decidable (¬(s.commit_sha = s'.commit_sha ∧ s.end_line + 1 = s'.start_line)))

/-- Input-side condition: whenever two consecutive records would be merged
(same commit, consecutive current lines), their original lines are also
consecutive. -/
def rec_step_coherent (a b : BlameRec) : Prop :=
  (a.commit_sha = b.commit_sha ∧ a.final_line + 1 = b.final_line) →
    b.orig_line = a.orig_line + 1

instance (a b : BlameRec) : Decidable (rec_step_coherent a b) :=
  inferInstanceAs
    (Decidable ((a.commit_sha = b.commit_sha ∧ a.final_line + 1 = b.final_line) →
      b.orig_line = a.orig_line + 1))

/-- The claimed segment invariant: the offset at the end of the segment
equals the offset at its start, and original lines are ordered. -/
def seg_offset_ok (s : Segment) : Prop :=
  s.end_line - s.orig_end_line = s.start_line - s.orig_start_line ∧
  s.orig_start_line ≤ s.orig_end_line

instance (s : Segment) : Decidable (seg_offset_ok s) :=
  inferInstanceAs
    (Decidable (s.end_line - s.orig_end_line = s.start_line - s.orig_start_line ∧
      s.orig_start_line ≤ s.orig_end_line))

/-! # Theorems -/

/-! ## Helper lemmas -/

/-- A successful association-list lookup returns a stored pair (the lookup
key is compared by full equality). -/
theorem afind_mem {α β : Type} [DecidableEq α] :
    ∀ (l : List (α × β)) (k : α) (v : β), afind l k = some v → (k, v) ∈ l := by
  intro l
  induction l with
  | nil => intro k v h; simp [afind] at h
  | cons p rest ih =>
    intro k v h
    obtain ⟨k', v'⟩ := p
    by_cases hk : k' = k
    · subst hk
      simp [afind] at h
      subst h
      exact List.mem_cons_self _ _
    · simp [afind, hk] at h
      exact List.mem_cons_of_mem _ (ih k v h)

/-! ## C1 — ledger line classification -/

/-- C1 (code bug): ledger.py's own comment and the hash-index tiebreak say
the range-claim with the highest edit_sequence must be attached to a mixed
line, and record.py assigns edit_sequence 0 to the first edit of every
session; but the key function at ledger.py line 561 is
max(claims, key=lambda c: c.get("edit_sequence") or -1), where Python's
`or` treats 0 as falsy.  On a commit whose changed line 1 is range-claimed
by trace A (no edit_sequence) and trace B (edit_sequence 0) with no hash
match, the built ledger attaches A, although B carries the highest
edit_sequence present (0, versus none at all for A). -/
theorem c1_code_bug_eval :
    trA.edit_sequence = none ∧ trB.edit_sequence = some 0 ∧
    afind (build_range_claim_index [trA, trB] "a.txt") 1 =
      some [⟨"A", none, none, none, none⟩, ⟨"B", none, none, none, some 0⟩] ∧
    build_attribution_ledger gsC1 [trA, trB] (fun s => s) (fun _ => none) "t0" =
      some { version := "1.0", commit_sha := "c1", parent_sha := some "p0",
             committed_at := none, created_at := "t0", trace_ids := ["A"],
             files := [("a.txt", [{ start_line := 1, end_line := 1, type := "mixed",
                                    trace_id := some "A", model_id := none,
                                    conversation_url := none }])] } := by
  decide

/-! ## C2 — timestamp-only signal never yields a tier -/

/-- C2 (confirmed): for any segment scored by _score_trace_local, if every
matched signal is the timestamp-window signal, _compute_tier returns none,
so no positive attribution is produced. -/
theorem c2_timestamp_only_no_tier (trace : Trace) (file_path : String) (line_number : Int)
    (content_hash : Option String) (blame_commit : String) (blame_parent : Option String)
    (has_commit_link : Bool) (linked_trace_ids : List String)
    (score : Int) (signals : List String)
    (hscore : score_trace_local trace file_path line_number content_hash blame_commit
        blame_parent has_commit_link linked_trace_ids = (score, signals))
    (honly : ∀ s ∈ signals, s = "timestamp_match") :
    compute_tier score signals = none := by
  unfold compute_tier
  by_cases h0 : score ≤ 0
  · simp [h0]
  · have hstr : ¬ ∃ s ∈ signals, s ∈ structural_signals := by
      rintro ⟨s, hs, hmem⟩
      have hts := honly s hs
      subst hts
      exact absurd hmem (by decide)
    simp [h0, hstr]

/-- Witness for C2: the trace t2w matches only the timestamp signal, is
scored (5, [timestamp_match]), and gets no tier. -/
theorem c2_timestamp_only_no_tier_witness :
    score_trace_local t2w "f" 1 none "c" none false [] = (5, ["timestamp_match"]) ∧
    compute_tier 5 ["timestamp_match"] = none :=
  ⟨by decide,
   c2_timestamp_only_no_tier t2w "f" 1 none "c" none false [] 5 ["timestamp_match"]
     (by decide) (by decide)⟩

/-! ## C5 — ledger build determinism -/

/-- C5 (counterexample): building the ledger twice for the same commit,
trace store and repository state, but at two different wall-clock instants,
yields different ledger records — the created_at field records the build
time. -/
theorem c5_counterexample :
    build_attribution_ledger gs5 [] (fun s => s) (fun _ => none) "2024-01-01T00:00:00" ≠
    build_attribution_ledger gs5 [] (fun s => s) (fun _ => none) "2024-01-01T00:00:05" := by
  decide

/-- C5 (amended): two builds of the ledger for the same commit against the
same trace store and repository state agree on every field except
created_at — the builder is a deterministic function of its inputs plus
the clock, and the clock only reaches created_at. -/
theorem c5_amended (gs : GitState) (traces : List Trace) (H : String → String)
    (parse_time : String → Option Int) (now1 now2 : String) :
    (build_attribution_ledger gs traces H parse_time now1).map Ledger.eraseCreated =
    (build_attribution_ledger gs traces H parse_time now2).map Ledger.eraseCreated := by
  unfold build_attribution_ledger
  cases build_attribution_ledger_core gs traces H parse_time <;> rfl

/-! ## C7 — trivial-line protection -/

/-- C7 (counterexample): a changed line consisting of three spaces is
whitespace-only, yet when a candidate trace's hash table contains its
hash the built ledger attributes it ai — only the six precomputed trivial
strings are protected. -/
theorem c7_counterexample :
    strBlank "   " = true ∧ "   " ∉ trivial_strings ∧
    line_at "   \n" 1 = some "   " ∧
    build_attribution_ledger gs7 [tr7] (fun s => s) (fun _ => none) "t0" =
      some { version := "1.0", commit_sha := "c1", parent_sha := some "p0",
             committed_at := none, created_at := "t0", trace_ids := ["T"],
             files := [("a.txt", [{ start_line := 1, end_line := 1, type := "ai",
                                    trace_id := some "T", model_id := some "m1",
                                    conversation_url := none }])] } := by
  decide

/-- C7 (amended): for every changed line whose content is one of the six
precomputed trivial strings (empty, one space, one tab, two spaces, four
spaces, two tabs), the ledger builder's line classification returns human
with no event attached, whatever the hash index and range-claim index
contain. -/
theorem c7_amended (H : String → String) (hidx : List (String × TraceMeta))
    (ridx : List (Int × List TraceMeta)) (content : String) (ln : Int) (lh s : String)
    (hs : s ∈ trivial_strings) (hline : line_at content ln = some s)
    (hlh : file_line_hash H content ln = some lh) :
    classify_changed_line (trivial_hashes H) hidx ridx ln lh = ⟨ln, "human", none, none, none⟩ := by
  have hval : lh = "sha256:" ++ H s := by
    unfold file_line_hash at hlh
    rw [hline] at hlh
    simpa using hlh.symm
  subst hval
  have hmem : ("sha256:" ++ H s) ∈ trivial_hashes H := by
    unfold trivial_hashes
    exact List.mem_map_of_mem _ hs
  unfold classify_changed_line
  simp [hmem]

/-- Witness for C7: a one-space line is classified human even though the
hash index maps its hash to an event. -/
theorem c7_amended_witness :
    classify_changed_line (trivial_hashes (fun s => s)) [("sha256: ", meta8)] [] 1 "sha256: " =
      ⟨1, "human", none, none, none⟩ :=
  c7_amended (fun s => s) [("sha256: ", meta8)] [] " \n" 1 "sha256: " " "
    (by decide) (by decide) (by decide)

/-! ## C8 — hash comparison rule -/

/-- C8 (counterexample): the comparison of _hashes_match is not "value
portions agree on the shorter of the two lengths": two hashes with empty
value portions agree on the (zero) shorter length but do not match; and
the ledger builder's hash-index lookup is an exact dict lookup, so a
legacy 8-character hash and the matching 16-character hash satisfy
_hashes_match yet miss in the index. -/
theorem c8_counterexample :
    (spec_hashes_match "sha256:" "sha256:" = true ∧
     hashes_match "sha256:" "sha256:" = false) ∧
    (hashes_match "sha256:abcdefgh" "sha256:abcdefgh12345678" = true ∧
     afind [("sha256:abcdefgh", meta8)] "sha256:abcdefgh12345678" = none) := by
  decide

/-- C8 (amended): _hashes_match declares a match iff the shorter of the two
lowercased value portions is nonempty and the portions agree on that
length; and the ledger builder's hash-index lookup returns only entries
stored under the exact full key (no prefix tolerance). -/
theorem c8_amended :
    (∀ a b : String,
      hashes_match a b = true ↔
        (min (lenStr (toLowerStr (removePrefixStr a "sha256:")))
             (lenStr (toLowerStr (removePrefixStr b "sha256:"))) ≠ 0 ∧
         takeStr (toLowerStr (removePrefixStr a "sha256:"))
             (min (lenStr (toLowerStr (removePrefixStr a "sha256:")))
                  (lenStr (toLowerStr (removePrefixStr b "sha256:")))) =
         takeStr (toLowerStr (removePrefixStr b "sha256:"))
             (min (lenStr (toLowerStr (removePrefixStr a "sha256:")))
                  (lenStr (toLowerStr (removePrefixStr b "sha256:")))))) ∧
    (∀ (idx : List (String × TraceMeta)) (h : String) (m : TraceMeta),
      afind idx h = some m → (h, m) ∈ idx) := by
  constructor
  · intro a b
    unfold hashes_match
    by_cases h0 : min (lenStr (toLowerStr (removePrefixStr a "sha256:")))
        (lenStr (toLowerStr (removePrefixStr b "sha256:"))) = 0
    · simp [h0]
    · simp [h0]
  · exact fun idx h m => afind_mem idx h m

/-- Witness for C8: the prefix rule fires on a case-folded pair, and a
stored pair is recovered by exact lookup. -/
theorem c8_amended_witness :
    hashes_match "sha256:AB" "sha256:abc" = true ∧
    ("sha256:k", meta8) ∈ [("sha256:k", meta8)] :=
  ⟨(c8_amended.1 "sha256:AB" "sha256:abc").mpr (by decide),
   c8_amended.2 [("sha256:k", meta8)] "sha256:k" meta8 (by decide)⟩

/-! ## C10 — tier-1 gate -/

/-- C10 (confirmed): _compute_tier returns tier 1 only when the score is at
least 95 and both the commit-link and content-hash signals are present;
with a score of at least 95 but either signal missing, the result is none
or tier 2 — never tier 1. -/
theorem c10_tier_one_gate (score : Int) (signals : List String) :
    (compute_tier score signals = some 1 →
      95 ≤ score ∧ "commit_link" ∈ signals ∧ "content_hash" ∈ signals) ∧
    (95 ≤ score → ("commit_link" ∉ signals ∨ "content_hash" ∉ signals) →
      compute_tier score signals = none ∨ compute_tier score signals = some 2) := by
  constructor
  · intro h
    unfold compute_tier at h
    split_ifs at h with h1 h2 h3 h4 h5 h6 h7 <;> simp_all
  · intro hs hmiss
    unfold compute_tier
    split_ifs with h1 h2 h3 h4 h5 h6 h7 <;>
      first
        | exact Or.inl rfl
        | exact Or.inr rfl
        | (exfalso; omega)
        | (refine Or.inl ?_
           rcases hmiss with hm | hm
           · exact hm h3.2.1
           · exact hm h3.2.2)

/-- Witness for C10: score 100 with commit_link but no content_hash yields
tier 2, and the tier-1 precondition extraction applies. -/
theorem c10_tier_one_gate_witness :
    (compute_tier 100 ["commit_link", "range_match"] = none ∨
     compute_tier 100 ["commit_link", "range_match"] = some 2) ∧
    (compute_tier 95 ["commit_link", "content_hash"] = some 1 →
      95 ≤ (95 : Int) ∧ "commit_link" ∈ ["commit_link", "content_hash"] ∧
      "content_hash" ∈ ["commit_link", "content_hash"]) :=
  ⟨(c10_tier_one_gate 100 ["commit_link", "range_match"]).2 (by decide) (by decide),
   (c10_tier_one_gate 95 ["commit_link", "content_hash"]).1⟩

/-! ## C6 — rewrite idempotence -/

/-- After a remap with a chain-free mapping, a ledger's commit SHA no
longer matches any key: it was either untouched (no key matched) or
replaced by a value, and no value is a key. -/
theorem remap_commit_nomatch (m : List (String × String))
    (hm : ∀ p ∈ m, afind m p.2 = none) (l : Ledger) :
    afind m ((remap_ledger m l).1).commit_sha = none := by
  unfold remap_ledger
  cases hc : afind m l.commit_sha with
  | some ns =>
    simp only [hc]
    exact hm (l.commit_sha, ns) (afind_mem m l.commit_sha ns hc)
  | none =>
    simp only [hc]

/-- When no stored commit SHA matches a key of the mapping, rewrite_ledgers
is a no-op returning count 0. -/
theorem rewrite_ledgers_no_hits (m : List (String × String)) (ls : List Ledger)
    (hls : ∀ l ∈ ls, afind m l.commit_sha = none) :
    rewrite_ledgers m ls = (ls, 0) := by
  unfold rewrite_ledgers
  by_cases hme : m.isEmpty
  · simp [hme]
  · rw [if_neg hme]
    have hfilt : ((ls.map (remap_ledger m)).filter (fun r => r.2)) = [] := by
      rw [List.filter_eq_nil_iff]
      intro r hr
      obtain ⟨l, hl, rfl⟩ := List.mem_map.mp hr
      unfold remap_ledger
      simp [hls l hl]
    simp [hfilt]

/-- Every ledger in the store left by one application of a chain-free
mapping has a commit SHA matching no key. -/
theorem mem_rewrite_ledgers_fst (m : List (String × String)) (ls : List Ledger)
    (hm : ∀ p ∈ m, afind m p.2 = none) (l' : Ledger)
    (hl' : l' ∈ (rewrite_ledgers m ls).1) : afind m l'.commit_sha = none := by
  unfold rewrite_ledgers at hl'
  by_cases hme : m.isEmpty
  · rw [if_pos hme] at hl'
    have hmnil : m = [] := by
      cases m with
      | nil => rfl
      | cons p ps => simp [List.isEmpty] at hme
    subst hmnil
    rfl
  · rw [if_neg hme] at hl'
    simp only [] at hl'
    by_cases hz : (((ls.map (remap_ledger m)).filter (fun r => r.2)).length = 0)
    · rw [if_pos hz] at hl'
      have hfilt := List.length_eq_zero.mp hz
      rw [List.filter_eq_nil_iff] at hfilt
      have h2 := hfilt (remap_ledger m l') (List.mem_map_of_mem _ hl')
      cases hc : afind m l'.commit_sha with
      | none => rfl
      | some ns =>
        exfalso
        apply h2
        unfold remap_ledger
        simp [hc]
    · rw [if_neg hz] at hl'
      obtain ⟨r, hr, rfl⟩ := List.mem_map.mp hl'
      obtain ⟨l0, hl0, rfl⟩ := List.mem_map.mp hr
      exact remap_commit_nomatch m hm l0

/-- C6 (counterexample): with the chained mapping A to B, B to C, a store
holding a ledger for commit A is changed again by the second application,
which returns count 1, not 0 — rewrite_ledgers is not idempotent for every
mapping. -/
theorem c6_counterexample :
    (rewrite_ledgers mChain [lA6]).1.map (fun l => l.commit_sha) = ["B"] ∧
    (rewrite_ledgers mChain (rewrite_ledgers mChain [lA6]).1).2 = 1 ∧
    (rewrite_ledgers mChain (rewrite_ledgers mChain [lA6]).1).1 ≠
      (rewrite_ledgers mChain [lA6]).1 := by
  decide

/-- C6 (amended): for every mapping none of whose values appears among its
keys (as git post-rewrite produces — keys are pre-rewrite SHAs, values
post-rewrite SHAs), applying rewrite_ledgers twice leaves the store exactly
as one application does, and the second application returns count 0. -/
theorem c6_amended (m : List (String × String)) (ledgers : List Ledger)
    (hm : ∀ p ∈ m, afind m p.2 = none) :
    rewrite_ledgers m (rewrite_ledgers m ledgers).1 = ((rewrite_ledgers m ledgers).1, 0) := by
  apply rewrite_ledgers_no_hits
  intro l' hl'
  exact mem_rewrite_ledgers_fst m ledgers hm l' hl'

/-- Witness for C6: remapping A to B leaves the store keyed by B, and the
repeat call is a no-op with count 0. -/
theorem c6_amended_witness :
    rewrite_ledgers m6 (rewrite_ledgers m6 [lA6]).1 = ((rewrite_ledgers m6 [lA6]).1, 0) ∧
    (rewrite_ledgers m6 [lA6]).1.map (fun l => l.commit_sha) = ["B"] :=
  ⟨c6_amended m6 [lA6] (by decide), by decide⟩

/-! ## C9 — segment grouping -/

theorem groupGo_chain :
    ∀ (rs : List BlameRec) (cur : Segment) (acc : List Segment),
      List.Chain' no_mergeable_adjacent (acc ++ [cur]) →
      List.Chain' no_mergeable_adjacent (groupGo cur acc rs) := by
  intro rs
  induction rs with
  | nil =>
    intro cur acc h
    simpa [groupGo] using h
  | cons r rs ih =>
    intro cur acc h
    unfold groupGo
    split_ifs with hc
    · apply ih
      rw [List.chain'_append] at h ⊢
      obtain ⟨h1, _, h3⟩ := h
      refine ⟨h1, List.chain'_singleton _, ?_⟩
      intro x hx y hy
      simp only [List.head?_cons, Option.mem_def, Option.some.injEq] at hy
      subst hy
      exact h3 x hx cur (by simp)
    · apply ih
      rw [List.chain'_append]
      refine ⟨h, List.chain'_singleton _, ?_⟩
      intro x hx y hy
      simp only [List.head?_cons, Option.mem_def, Option.some.injEq] at hy
      subst hy
      rw [List.getLast?_concat] at hx
      simp only [Option.mem_def, Option.some.injEq] at hx
      subst hx
      exact hc

/-- C9 (confirmed): the grouper merges a record into the current segment
exactly when the commit id is unchanged and the current line is one greater
than the segment's end; on records for lines 10-15 on c1 and 16 on c2 it
yields exactly the two segments [10,15] on c1 and [16,16] on c2, and in
general no two adjacent output segments share a commit id with consecutive
current lines. -/
theorem c9_segment_grouping :
    group_into_segments exRecs9 = [seg9a, seg9b] ∧
    ∀ rs : List BlameRec, List.Chain' no_mergeable_adjacent (group_into_segments rs) := by
  constructor
  · decide
  · intro rs
    cases rs with
    | nil => simp [group_into_segments]
    | cons r rs =>
      apply groupGo_chain rs (segOfRec r) []
      simp

/-! ## C4 — per-segment offset invariant -/

theorem groupGo_offset :
    ∀ (rs : List BlameRec) (cur : Segment) (acc : List Segment) (prev : BlameRec),
      cur.commit_sha = prev.commit_sha → cur.end_line = prev.final_line →
      cur.orig_end_line = prev.orig_line → seg_offset_ok cur →
      (∀ s ∈ acc, seg_offset_ok s) → List.Chain' rec_step_coherent (prev :: rs) →
      ∀ s ∈ groupGo cur acc rs, seg_offset_ok s := by
  intro rs
  induction rs with
  | nil =>
    intro cur acc prev _ _ _ hok hacc _ s hs
    unfold groupGo at hs
    rcases List.mem_append.mp hs with h | h
    · exact hacc s h
    · simp only [List.mem_singleton] at h
      subst h
      exact hok
  | cons r rs ih =>
    intro cur acc prev hcom hend horig hok hacc hchain
    rw [List.chain'_cons] at hchain
    obtain ⟨hpr, hchain'⟩ := hchain
    unfold groupGo
    split_ifs with hc
    · have horigr : r.orig_line = prev.orig_line + 1 := by
        apply hpr
        constructor
        · rw [← hcom]; exact hc.1
        · rw [← hend]; exact hc.2
      apply ih _ acc r
      · exact hc.1
      · rfl
      · rfl
      · constructor
        · show r.final_line - r.orig_line = cur.start_line - cur.orig_start_line
          have h1 := hok.1
          omega
        · show cur.orig_start_line ≤ r.orig_line
          have h2 := hok.2
          omega
      · exact hacc
      · exact hchain'
    · apply ih (segOfRec r) (acc ++ [cur]) r rfl rfl rfl ⟨rfl, le_refl _⟩
      · intro s hs
        rcases List.mem_append.mp hs with h | h
        · exact hacc s h
        · simp only [List.mem_singleton] at h
          subst h
          exact hok
      · exact hchain'

/-- The chain hypothesis of the C4 witness, established explicitly
(Chain' has no kernel-reducible decidability instance). -/
theorem goodRecs4_coherent : List.Chain' rec_step_coherent goodRecs4 := by
  rw [show goodRecs4 = [mkBlameRec "c" 5 10, mkBlameRec "c" 6 11, mkBlameRec "d" 1 12] from rfl]
  rw [List.chain'_cons, List.chain'_cons]
  exact ⟨fun _ => by decide, fun hcontra => absurd hcontra.1 (by decide),
         List.chain'_singleton _⟩

/-- C4 (counterexample): the grouper merges records on current-line
continuity alone; on consecutive current lines 1-3 of one commit whose
original lines are 1, 2, 9 (a later commit deleted original lines 3-8) it
produces one segment whose end offset differs from its start offset, so
the offset current minus original is not constant within the segment. -/
theorem c4_counterexample :
    group_into_segments badRecs4 = [badSeg4] ∧
    badSeg4.end_line - badSeg4.orig_end_line ≠ badSeg4.start_line - badSeg4.orig_start_line := by
  decide

/-- C4 (amended): provided each record merged into the current segment also
advances the original line by exactly one (which the grouper does not
check), every produced segment s satisfies
s.end - s.orig_end = s.start - s.orig_start and orig_start is at most
orig_end, i.e. the offset is constant across the segment. -/
theorem c4_amended (recs : List BlameRec) (h : List.Chain' rec_step_coherent recs) :
    ∀ s ∈ group_into_segments recs, seg_offset_ok s := by
  cases recs with
  | nil =>
    intro s hs
    simp [group_into_segments] at hs
  | cons r rs =>
    exact groupGo_offset rs (segOfRec r) [] r rfl rfl rfl ⟨rfl, le_refl _⟩ (by simp) h

/-! ## C3 — gap forwarding around ledger coverage -/

/-- Mapping over a nonempty list, the last element of the image is the
image of the last element. -/
theorem getLast?_map_cons {α β : Type} (f : α → β) :
    ∀ (rest : List α) (first : α),
      ((first :: rest).map f).getLast? = some (f (lastD rest first)) := by
  intro rest
  induction rest with
  | nil => intro first; rfl
  | cons a l ih =>
    intro first
    rw [List.map_cons, List.map_cons, List.getLast?_cons_cons]
    rw [← List.map_cons]
    exact ih a

/-- C3 (counterexample): a segment spanning original lines 1-3 whose ledger
covers only lines 1 and 3 gets attributions for lines 1 and 3, no remaining
segment at all, and no attribution covering line 2 — the interior gap
between two covered ledger ranges is dropped from both the ledger output
and the heuristic input. -/
theorem c3_counterexample :
    (attribute_from_ledger [seg3] [("C", ledg3)] "f").2 = [] ∧
    ((attribute_from_ledger [seg3] [("C", ledg3)] "f").1.map
       (fun a => (a.start_line, a.end_line))) = [(1, 1), (3, 3)] ∧
    (∀ a ∈ (attribute_from_ledger [seg3] [("C", ledg3)] "f").1,
       ¬(a.start_line ≤ 2 ∧ 2 ≤ a.end_line)) ∧
    seg3.orig_start_line ≤ 2 ∧ 2 ≤ seg3.orig_end_line ∧
    seg3.start_line ≤ 2 ∧ 2 ≤ seg3.end_line := by
  decide

/-- C3 (amended): when the ledger resolves a segment (the attribution list
is nonempty), let covS and covE be the first and last covered original
lines of the sorted overlapping ledger entries (covS + offset is the first
emitted start line, covE + offset the last emitted end line).  A gap before
covS is forwarded as one remaining segment clamped exactly to it, a gap
after covE likewise, and without such outer gaps nothing is forwarded —
interior gaps between covered ranges are not forwarded. -/
theorem c3_amended (ledgers : List (String × Ledger)) (file_path : String) (seg : Segment)
    (hne : (attribute_from_ledger_seg ledgers file_path seg).1 ≠ []) :
    ∃ covS covE : Int,
      ((attribute_from_ledger_seg ledgers file_path seg).1.head?.map (fun a => a.start_line)
        = some (covS + (seg.start_line - seg.orig_start_line))) ∧
      ((attribute_from_ledger_seg ledgers file_path seg).1.getLast?.map (fun a => a.end_line)
        = some (covE + (seg.start_line - seg.orig_start_line))) ∧
      (seg.orig_start_line < covS →
        ∃ g ∈ (attribute_from_ledger_seg ledgers file_path seg).2,
          g.commit_sha = seg.commit_sha ∧
          g.start_line = seg.start_line ∧
          g.end_line = covS + (seg.start_line - seg.orig_start_line) - 1 ∧
          g.orig_start_line = seg.orig_start_line ∧
          g.orig_end_line = covS - 1) ∧
      (covE < seg.orig_end_line →
        ∃ g ∈ (attribute_from_ledger_seg ledgers file_path seg).2,
          g.commit_sha = seg.commit_sha ∧
          g.start_line = covE + (seg.start_line - seg.orig_start_line) + 1 ∧
          g.end_line = seg.end_line ∧
          g.orig_start_line = covE + 1 ∧
          g.orig_end_line = seg.orig_end_line) ∧
      (¬ seg.orig_start_line < covS → ¬ covE < seg.orig_end_line →
        (attribute_from_ledger_seg ledgers file_path seg).2 = []) := by
  cases hledger : afind ledgers seg.commit_sha with
  | none =>
    exfalso
    apply hne
    simp only [attribute_from_ledger_seg, hledger]
  | some ledger =>
    cases hfl : afind ledger.files file_path with
    | none =>
      exfalso
      apply hne
      simp only [attribute_from_ledger_seg, hledger, hfl]
    | some line_attrs =>
      cases hovl : (sortBySL line_attrs).filterMap (fun la =>
          if ranges_overlap la.start_line la.end_line seg.orig_start_line seg.orig_end_line then
            some (max la.start_line seg.orig_start_line, min la.end_line seg.orig_end_line, la)
          else none) with
      | nil =>
        exfalso
        apply hne
        simp only [attribute_from_ledger_seg, hledger, hfl, hovl]
      | cons first rest =>
        have hval : attribute_from_ledger_seg ledgers file_path seg =
            ((first :: rest).map (fun ov =>
               mk_ledger_attribution seg.commit_sha (seg.start_line - seg.orig_start_line)
                 ov.1 ov.2.1 ov.2.2),
             ledger_gap_segments seg first.1 (lastD rest first).2.1) := by
          simp only [attribute_from_ledger_seg, hledger, hfl, hovl]
        refine ⟨first.1, (lastD rest first).2.1, ?_, ?_, ?_, ?_, ?_⟩
        · rw [hval]
          rfl
        · rw [hval]
          simp only [getLast?_map_cons, Option.map_some']
          rfl
        · intro hlt
          rw [hval]
          simp only []
          unfold ledger_gap_segments
          rw [if_pos hlt]
          exact ⟨_, List.mem_append_left _ (List.mem_cons_self _ _), rfl, rfl, rfl, rfl, rfl⟩
        · intro hlt
          rw [hval]
          simp only []
          unfold ledger_gap_segments
          rw [if_pos hlt]
          refine ⟨_, List.mem_append_right _ (List.mem_cons_self _ _), rfl, rfl, rfl, rfl, rfl⟩
        · intro h1 h2
          rw [hval]
          simp only []
          unfold ledger_gap_segments
          rw [if_neg h1, if_neg h2]
          rfl

/-- Witness for C3: a ledger covering original lines 2-3 of a segment
spanning 1-3 forwards exactly the leading gap, line 1, to the heuristic
path. -/
theorem c3_amended_witness :
    (∃ covS covE : Int,
      ((attribute_from_ledger_seg [("C", ledgW3)] "f" seg3).1.head?.map (fun a => a.start_line)
        = some (covS + (seg3.start_line - seg3.orig_start_line))) ∧
      ((attribute_from_ledger_seg [("C", ledgW3)] "f" seg3).1.getLast?.map (fun a => a.end_line)
        = some (covE + (seg3.start_line - seg3.orig_start_line))) ∧
      (seg3.orig_start_line < covS →
        ∃ g ∈ (attribute_from_ledger_seg [("C", ledgW3)] "f" seg3).2,
          g.commit_sha = seg3.commit_sha ∧
          g.start_line = seg3.start_line ∧
          g.end_line = covS + (seg3.start_line - seg3.orig_start_line) - 1 ∧
          g.orig_start_line = seg3.orig_start_line ∧
          g.orig_end_line = covS - 1) ∧
      (covE < seg3.orig_end_line →
        ∃ g ∈ (attribute_from_ledger_seg [("C", ledgW3)] "f" seg3).2,
          g.commit_sha = seg3.commit_sha ∧
          g.start_line = covE + (seg3.start_line - seg3.orig_start_line) + 1 ∧
          g.end_line = seg3.end_line ∧
          g.orig_start_line = covE + 1 ∧
          g.orig_end_line = seg3.orig_end_line) ∧
      (¬ seg3.orig_start_line < covS → ¬ covE < seg3.orig_end_line →
        (attribute_from_ledger_seg [("C", ledgW3)] "f" seg3).2 = [])) ∧
    ((attribute_from_ledger_seg [("C", ledgW3)] "f" seg3).2.map
       (fun g => (g.start_line, g.end_line, g.orig_start_line, g.orig_end_line))) = [(1, 1, 1, 1)] :=
  ⟨c3_amended [("C", ledgW3)] "f" seg3 (by decide), by decide⟩

/-- Witness for C4: on records with in-step original lines the two produced
segments both satisfy the offset invariant. -/
theorem c4_amended_witness :
    seg_offset_ok { commit_sha := "c", start_line := 10, end_line := 11, orig_start_line := 5,
                    orig_end_line := 6, content_lines := ["x", "x"], author := "",
                    author_time := none, summary := "", filename := "f" } ∧
    seg_offset_ok { commit_sha := "d", start_line := 12, end_line := 12, orig_start_line := 1,
                    orig_end_line := 1, content_lines := ["x"], author := "",
                    author_time := none, summary := "", filename := "f" } :=
  ⟨c4_amended goodRecs4 goodRecs4_coherent _ (by decide),
   c4_amended goodRecs4 goodRecs4_coherent _ (by decide)⟩

end AgentTrace
